import Mathlib

/-!
Verification of the dnssim output module (src/output/dnssim.c) of dnsjit.

The definitions below shallowly embed the request/query lifecycle engine:
statistics counters, the `_maybe_free_request` / `_close_request` /
`_close_request_timeout` family, the UDP response path, the ingress
dispatcher `_receive`, the source-address ring, and engine construction
and teardown.  Machine pointers are modelled as `Option`/`List` values,
libuv handles as explicit state, and the event loop as a small-step
transition relation whose pending-close-callback stack mirrors libuv's
LIFO processing of closing handles.
-/

set_option autoImplicit false

namespace Dnssim

/-! ### Statistics and client records (output_dnssim_stats_t, output_dnssim_client_t) -/

/-- One statistics record: the three counters of `output_dnssim_stats_t`
(`total`, `answered`, `noerror`); the `prev`/`next` links are represented
by the position of the record in a `List`. -/
structure Stats where
  total    : Nat
  answered : Nat
  noerror  : Nat
deriving DecidableEq, Repr

/-- `_stats_defaults`: all counters zero. -/
def statsDefaults : Stats := ⟨0, 0, 0⟩

/-- One per-client accounting slot (`output_dnssim_client_t`): three request
counters and three latency fields.  The latency fields are doubles in the
source; only the value zero ever occurs in the code under verification, so
they are modelled as integers. -/
structure Client where
  req_total    : Nat
  req_answered : Nat
  req_noerror  : Nat
  latency_min  : Int
  latency_max  : Int
  latency_sum  : Int
deriving DecidableEq, Repr

/-- `_client_defaults`: `{0, 0, 0, 0.0, 0.0, 0.0}`. -/
def clientDefaults : Client := ⟨0, 0, 0, 0, 0, 0⟩

/-! ### `_maybe_free_request` (dnssim.c:107-118)

A request is modelled by the two fields `_maybe_free_request` inspects:
`req->qry` (the singly-linked query list, `NULL` iff the list is empty) and
`req->timeout` (the timer pointer).  The frees the function performs are
returned as an explicit action record. -/

/-- The two request fields consulted by `_maybe_free_request`. -/
structure Request where
  qry     : List Nat
  timeout : Option Nat
deriving DecidableEq, Repr

/-- The frees `_maybe_free_request` may perform: the payload object, the
parsed DNS header object (`req->dns_q`), and the request itself. -/
structure FreeActions where
  payload : Bool
  dnsq    : Bool
  req     : Bool
deriving DecidableEq, Repr

/-- No free performed. -/
def noFrees : FreeActions := ⟨false, false, false⟩

/-- `_maybe_free_request(req)`: when `req->qry == NULL && req->timeout == NULL`,
free the payload if `free_after_use` is set, free `req->dns_q`, and free the
request; otherwise do nothing. -/
def maybeFreeRequest (free_after_use : Bool) (r : Request) : Request × FreeActions :=
  if r.qry = [] ∧ r.timeout = none then
    (r, ⟨free_after_use, true, true⟩)
  else
    (r, noFrees)

/-! ### `_close_request_timeout` (dnssim.c:158-167)

The state of one request's timeout handle: the `timeout_closing` flag plus
counters of how many `uv_timer_stop` and `uv_close` calls have been issued
on the handle. -/

structure TimeoutHandle where
  timeout_closing : Bool
  stops  : Nat
  closes : Nat
deriving DecidableEq, Repr

/-- `_close_request_timeout(handle)`: when `timeout_closing` is clear, set
it, stop the timer and close the handle; otherwise do nothing. -/
def closeRequestTimeout (h : TimeoutHandle) : TimeoutHandle :=
  if h.timeout_closing = false then
    { h with timeout_closing := true, stops := h.stops + 1, closes := h.closes + 1 }
  else h

/-! ### `_process_udp_response` (dnssim.c:171-206) -/

/-- The DNS header fields the UDP matcher consumes (`core_object_dns_t`
after `core_object_dns_parse_header`): message id, truncated bit, rcode. -/
structure DnsHdr where
  id    : Nat
  tc    : Nat
  rcode : Nat
deriving DecidableEq, Repr

/-- `CORE_OBJECT_DNS_RCODE_NOERROR` (DNS rcode 0). -/
def RCODE_NOERROR : Nat := 0

/-- `_ERR_MALFORMED` -/
def ERR_MALFORMED : Int := -2
/-- `_ERR_MSGID` -/
def ERR_MSGID : Int := -3
/-- `_ERR_TC` -/
def ERR_TC : Int := -4

/-- The counters touched by the response path: the request's client slot,
`stats_sum` and `stats_current`. -/
structure RespState where
  client  : Client
  sum     : Stats
  current : Stats
deriving DecidableEq, Repr

/-- `_process_udp_response`: `reply` is the result of
`core_object_dns_parse_header` on the received datagram (`none` when the
parse returns nonzero), `reqId` is `req->dns_q->id`.  Returns the updated
counters, the return code, and whether `_close_request` was invoked. -/
def processUdpResponse (reqId : Nat) (reply : Option DnsHdr) (s : RespState) :
    RespState × Int × Bool :=
  match reply with
  | none => (s, ERR_MALFORMED, false)
  | some dns_a =>
    if dns_a.id ≠ reqId then (s, ERR_MSGID, false)
    else if dns_a.tc = 1 then (s, ERR_TC, false)
    else
      let s := { s with client := { s.client with req_answered := s.client.req_answered + 1 } }
      let s := { s with sum := { s.sum with answered := s.sum.answered + 1 } }
      let s := { s with current := { s.current with answered := s.current.answered + 1 } }
      let s :=
        if dns_a.rcode = RCODE_NOERROR then
          let s := { s with client := { s.client with req_noerror := s.client.req_noerror + 1 } }
          let s := { s with sum := { s.sum with noerror := s.sum.noerror + 1 } }
          { s with current := { s.current with noerror := s.current.noerror + 1 } }
        else s
      (s, 0, true)

end Dnssim

namespace Dnssim

/-! ### Theorems for the functional claims on the request plumbing -/

/-- Claim C2: `_maybe_free_request` frees the request if and only if its
query list is empty and its timeout is null; when it frees, it frees the
payload exactly when `free_after_use` is set and always frees the parsed
DNS header structure; when the condition fails it leaves all state
unchanged and performs no free. -/
theorem maybe_free_request_spec (fau : Bool) (r : Request) :
    ((maybeFreeRequest fau r).2.req = true ↔ (r.qry = [] ∧ r.timeout = none)) ∧
    ((maybeFreeRequest fau r).2.req = true →
      (maybeFreeRequest fau r).2.payload = fau ∧ (maybeFreeRequest fau r).2.dnsq = true) ∧
    ((maybeFreeRequest fau r).2.req = false →
      (maybeFreeRequest fau r).1 = r ∧ (maybeFreeRequest fau r).2 = noFrees) := by
  by_cases h : r.qry = [] ∧ r.timeout = none <;>
    simp [maybeFreeRequest, h, noFrees]

/-- Witness for C2 at a concrete drained request: empty query list and
null timeout, `free_after_use` set — the request and payload are freed. -/
theorem maybe_free_request_spec_witness :
    (maybeFreeRequest true ⟨[], none⟩).2.req = true :=
  ((maybe_free_request_spec true ⟨[], none⟩).1).mpr ⟨rfl, rfl⟩

/-- Claim C10: closing a request's timeout is idempotent — when the
`timeout_closing` flag is already set, `_close_request_timeout` leaves all
state unchanged, and on any handle a second call after a first one changes
nothing, so the timer stop and the handle close are issued at most once. -/
theorem close_request_timeout_idempotent (h : TimeoutHandle)
    (hset : h.timeout_closing = true) :
    closeRequestTimeout h = h ∧
    (∀ g : TimeoutHandle,
      closeRequestTimeout (closeRequestTimeout g) = closeRequestTimeout g ∧
      (closeRequestTimeout g).stops ≤ g.stops + 1 ∧
      (closeRequestTimeout g).closes ≤ g.closes + 1) := by
  refine ⟨by simp [closeRequestTimeout, hset], fun g => ?_⟩
  by_cases hg : g.timeout_closing = false <;>
    simp [closeRequestTimeout, hg]

/-- Witness for C10 at a concrete handle whose closing flag is set. -/
theorem close_request_timeout_idempotent_witness :
    closeRequestTimeout ⟨true, 1, 1⟩ = ⟨true, 1, 1⟩ :=
  (close_request_timeout_idempotent ⟨true, 1, 1⟩ rfl).1

/-- Claim C3: for every UDP reply for an in-flight request — if the header
fails to parse, or its id differs from the request's saved id, or its TC
bit is 1, then no counter changes and the request stays open; otherwise
`req_answered`, `sum.answered` and `current.answered` are each incremented
exactly once, the three noerror counters additionally exactly once iff
`rcode = NOERROR`, and the request is then closed. -/
theorem process_udp_response_spec (reqId : Nat) (reply : Option DnsHdr) (s : RespState) :
    (reply = none →
      (processUdpResponse reqId reply s).1 = s ∧
      (processUdpResponse reqId reply s).2.2 = false) ∧
    (∀ a : DnsHdr, reply = some a → (a.id ≠ reqId ∨ a.tc = 1) →
      (processUdpResponse reqId reply s).1 = s ∧
      (processUdpResponse reqId reply s).2.2 = false) ∧
    (∀ a : DnsHdr, reply = some a → a.id = reqId → a.tc ≠ 1 →
      (processUdpResponse reqId reply s).2.2 = true ∧
      (processUdpResponse reqId reply s).1.client.req_answered = s.client.req_answered + 1 ∧
      (processUdpResponse reqId reply s).1.sum.answered = s.sum.answered + 1 ∧
      (processUdpResponse reqId reply s).1.current.answered = s.current.answered + 1 ∧
      (processUdpResponse reqId reply s).1.client.req_total = s.client.req_total ∧
      (processUdpResponse reqId reply s).1.sum.total = s.sum.total ∧
      (processUdpResponse reqId reply s).1.current.total = s.current.total ∧
      (processUdpResponse reqId reply s).1.client.req_noerror =
        (if a.rcode = RCODE_NOERROR then s.client.req_noerror + 1 else s.client.req_noerror) ∧
      (processUdpResponse reqId reply s).1.sum.noerror =
        (if a.rcode = RCODE_NOERROR then s.sum.noerror + 1 else s.sum.noerror) ∧
      (processUdpResponse reqId reply s).1.current.noerror =
        (if a.rcode = RCODE_NOERROR then s.current.noerror + 1 else s.current.noerror)) := by
  refine ⟨fun hn => by simp [processUdpResponse, hn], fun a ha hbad => ?_, fun a ha hid htc => ?_⟩
  · subst ha
    rcases hbad with hbad | hbad
    · simp [processUdpResponse, hbad]
    · by_cases hid : a.id = reqId <;> simp [processUdpResponse, hid, hbad]
  · subst ha
    by_cases hrc : a.rcode = RCODE_NOERROR <;>
      simp [processUdpResponse, hid, htc, hrc]

/-- Witness for C3: a concrete matching reply with rcode `NOERROR` closes
the request and bumps all six counters. -/
theorem process_udp_response_spec_witness :
    (processUdpResponse 7 (some ⟨7, 0, 0⟩) ⟨clientDefaults, statsDefaults, statsDefaults⟩).2.2
      = true := by
  have h := (process_udp_response_spec 7 (some ⟨7, 0, 0⟩)
    ⟨clientDefaults, statsDefaults, statsDefaults⟩).2.2 ⟨7, 0, 0⟩ rfl rfl (by decide)
  exact h.1

/-! ### `output_dnssim_free` teardown order (dnssim.c:422-456)

The statistics chain is represented as the list of snapshots reachable from
`stats_current` through the `prev` links (head = current snapshot).  The
function's observable free order is recorded as a list of tags. -/

/-- A freed statistics object: the `stats_sum` structure or one snapshot
(identified by its payload). -/
inductive FreeTag where
  | sum  : FreeTag
  | snap : Stats → FreeTag
deriving DecidableEq, Repr

/-- The `do { free(current); current = prev; } while (current != NULL)` walk
of `output_dnssim_free`, as the sequence of snapshot frees it performs. -/
def freeSnapshotWalk : List Stats → List FreeTag
  | []        => []
  | c :: prev => FreeTag.snap c :: freeSnapshotWalk prev

/-- `output_dnssim_free`: `free(self->stats_sum)` is executed first
(dnssim.c:430), and only then the do/while walk over the snapshot chain
(dnssim.c:431-435) runs. -/
def outputDnssimFreeOrder (chain : List Stats) : List FreeTag :=
  FreeTag.sum :: freeSnapshotWalk chain

/-- Counterexample to claim C8: on an engine whose chain holds the single
snapshot `statsDefaults`, the code's free order puts `sum` first, not after
the snapshots as the claim states. -/
theorem free_order_claim_false :
    ¬ outputDnssimFreeOrder [statsDefaults] =
        freeSnapshotWalk [statsDefaults] ++ [FreeTag.sum] := by
  decide

/-- Claim C8 amended: at teardown `output_dnssim_free` frees the `sum`
structure first and only then every snapshot, walking from `current`
backward via `prev` until the chain is exhausted (each snapshot freed
exactly once, in walk order). -/
theorem free_order_amended (chain : List Stats) (h : chain ≠ []) :
    (outputDnssimFreeOrder chain).head? = some FreeTag.sum ∧
    (outputDnssimFreeOrder chain).tail = freeSnapshotWalk chain ∧
    freeSnapshotWalk chain = chain.map FreeTag.snap := by
  refine ⟨rfl, rfl, ?_⟩
  induction chain with
  | nil => simp [freeSnapshotWalk]
  | cons c rest ih =>
    rcases rest with _ | ⟨d, rest⟩
    · simp [freeSnapshotWalk]
    · simpa [freeSnapshotWalk] using ih (by simp)

/-- Witness for the amended C8 on a two-snapshot chain. -/
theorem free_order_amended_witness :
    (outputDnssimFreeOrder [statsDefaults, ⟨1, 1, 0⟩]).head? = some FreeTag.sum :=
  (free_order_amended [statsDefaults, ⟨1, 1, 0⟩] (by simp)).1

/-! ### `output_dnssim_new` (dnssim.c:390-420)

Only the pieces claim C9 is about are modelled: the zero-filling `calloc`
of the client array, the initialization loop, and the order in which
`self->max_clients` is assigned.  In `_defaults` every counter-like field
is zero, so at the time the loop runs `self->max_clients` is still 0. -/

/-- `self->max_clients` as left by `*self = _defaults` (dnssim.c:396),
before the assignment at dnssim.c:411. -/
def defaultsMaxClients : Nat := 0

/-- `calloc(max_clients, sizeof(output_dnssim_client_t))`: a zero-filled
array.  An all-zero-bytes `output_dnssim_client_t` is exactly
`_client_defaults` (its doubles are `0.0`, whose representation is zero). -/
def callocClients (n : Nat) : List Client := List.replicate n clientDefaults

/-- The loop `for (i = 0; i < self->max_clients; i++) *self->client_arr =
_client_defaults;` (dnssim.c:408-410): it iterates `self->max_clients`
times (still the default value) and each iteration writes index 0 only. -/
def clientInitLoop : Nat → List Client → List Client
  | 0,     arr => arr
  | n + 1, arr => clientInitLoop n (arr.set 0 clientDefaults)

/-- The client array of `output_dnssim_new(max_clients)` at return. -/
def outputDnssimNewClients (max_clients : Nat) : List Client :=
  clientInitLoop defaultsMaxClients (callocClients max_clients)

/-- Claim C9: after `output_dnssim_new(max_clients)` returns, the client
array has `max_clients` slots and every one of them (not only slot 0)
holds the client defaults — the broken initialization loop is masked by
the zero-filling `calloc`. -/
theorem new_initializes_all_clients (mc : Nat) (_hmc : 0 < mc) :
    (outputDnssimNewClients mc).length = mc ∧
    ∀ c ∈ outputDnssimNewClients mc, c = clientDefaults := by
  refine ⟨by simp [outputDnssimNewClients, defaultsMaxClients, callocClients, clientInitLoop],
    fun c hc => ?_⟩
  exact List.eq_of_mem_replicate hc

/-- Witness for C9 at `max_clients = 4`: slot 3 holds the defaults. -/
theorem new_initializes_all_clients_witness :
    (outputDnssimNewClients 4).length = 4 :=
  (new_initializes_all_clients 4 (by decide)).1

/-! ### The source-address ring (`output_dnssim_bind`, dnssim.c:583-608, and
the cursor rotation of `_create_query_udp`, dnssim.c:299-306)

The circular singly-linked list with its cursor `_self->source` is
represented as the finite list of nodes read off by following `next` from
the cursor: the head is the node the cursor points to, and the `next` of
the last element wraps to the head.  Sources are identified by a label. -/

/-- `output_dnssim_bind` after a successful IPv6 parse: empty list — the
node points to itself and becomes the cursor (dnssim.c:598-600); otherwise
the node is spliced in right after the cursor (`source->next =
cursor->next; cursor->next = source`, dnssim.c:601-604) and the cursor is
left unchanged. -/
def bindSource (ring : List Nat) (src : Nat) : List Nat :=
  match ring with
  | []        => [src]
  | c :: rest => c :: src :: rest

/-- The cursor advance `_self->source = _self->source->next` performed by
`_create_query_udp` after binding (dnssim.c:305): in the cursor-rooted
representation, rotate by one. -/
def advanceSource : List Nat → List Nat
  | []        => []
  | c :: rest => rest ++ [c]

/-- The sequence of sources consumed by `n` successive query creations:
each reads the cursor's node and then advances the cursor. -/
def consumeSources : Nat → List Nat → List Nat
  | 0,     _         => []
  | _ + 1, []        => []
  | n + 1, c :: rest => c :: consumeSources n (rest ++ [c])

/-- Splicing after a fixed cursor accumulates the later binds right behind
the head, in reverse order of insertion. -/
theorem foldl_bindSource (c : Nat) (r l : List Nat) :
    List.foldl bindSource (c :: r) l = c :: (l.reverse ++ r) := by
  induction l generalizing r with
  | nil => simp
  | cons b t ih => simp [bindSource, ih]

/-- Consuming as many sources as the ring holds visits the ring once, in
`next` order from the cursor. -/
theorem consumeSources_take (n : Nat) :
    ∀ l : List Nat, n ≤ l.length → consumeSources n l = l.take n := by
  induction n with
  | zero => intro l _; simp [consumeSources]
  | succ n ih =>
    intro l hl
    match l with
    | [] => simp at hl
    | c :: rest =>
      have hn : n ≤ rest.length := Nat.le_of_succ_le_succ hl
      have harg : n ≤ (rest ++ [c]).length := by
        simp; omega
      have htk : (rest ++ [c]).take n = rest.take n :=
        List.take_append_of_le_length hn
      simp [consumeSources, ih (rest ++ [c]) harg, htk]

/-- Counterexample to claim C5: binding the three sources `10`, `20`, `30`
in this order and then consuming three sources visits `10, 30, 20` — not
the insertion order `10, 20, 30` (the cursor never advances during binds,
so later nodes pile up directly behind the head). -/
theorem bind_source_rotation_claim_false :
    ¬ consumeSources 3 (List.foldl bindSource [] [10, 20, 30]) = [10, 20, 30] := by
  decide

/-- Claim C5 amended: when the list is empty the new node points to itself;
otherwise the new node is inserted immediately after the cursor; since the
cursor stays on the first-bound node during binds, consumption during query
creation visits the first-bound source first and then the remaining
sources in reverse order of insertion. -/
theorem bind_source_rotation_amended (a : Nat) (l : List Nat) :
    bindSource [] a = [a] ∧
    advanceSource (bindSource [] a) = bindSource [] a ∧
    (∀ c : Nat, ∀ r : List Nat, bindSource (c :: r) a = c :: a :: r) ∧
    consumeSources (l.length + 1) (List.foldl bindSource [] (a :: l)) = a :: l.reverse := by
  refine ⟨rfl, rfl, fun c r => rfl, ?_⟩
  have hfold : List.foldl bindSource [] (a :: l) = a :: l.reverse := by
    have := foldl_bindSource a [] l
    simpa [bindSource] using this
  rw [hfold]
  have hlen : l.length + 1 ≤ (a :: l.reverse).length := by simp
  rw [consumeSources_take (l.length + 1) (a :: l.reverse) hlen]
  simp [List.take_of_length_le]

/-! ### The ingress dispatcher `_receive` (dnssim.c:477-535)

The inbound object chain is the list of objects visited by following
`obj_prev` from the object handed to `_receive` (head = that object). -/

/-- One decoded protocol object.  Only the constructor tag (`obj_type`) and
the destination-address bytes of the IP layers matter to `_receive`;
payloads carry a label standing for the byte buffer. -/
inductive CObj where
  | payload (id : Nat)
  | ip  (dst : List Nat)
  | ip6 (dst : List Nat)
  | other (id : Nat)
deriving DecidableEq, Repr

/-- `obj_type == CORE_OBJECT_PAYLOAD` -/
def CObj.isPayload : CObj → Bool
  | .payload _ => true
  | _ => false

/-- `obj_type == CORE_OBJECT_IP || obj_type == CORE_OBJECT_IP6` -/
def CObj.isIpLayer : CObj → Bool
  | .ip _  => true
  | .ip6 _ => true
  | _ => false

/-- `memcpy(&client, ip, sizeof(client))`: the first four destination
bytes assembled little-endian into a 32-bit value. -/
def leBytes4 (dst : List Nat) : Nat :=
  dst.getD 0 0 % 256 + 256 * (dst.getD 1 0 % 256) +
    65536 * (dst.getD 2 0 % 256) + 16777216 * (dst.getD 3 0 % 256)

/-- `_extract_client` (dnssim.c:458-475): the destination bytes of the IP
or IP6 layer; for any other object type the function returns `(uint32_t)-1`. -/
def extractClient : CObj → Nat
  | .ip dst  => leBytes4 dst
  | .ip6 dst => leBytes4 dst
  | _ => 4294967295

/-- The first walk of `_receive` (dnssim.c:487-498): scan for the first
`PAYLOAD` object; return its label together with the chain suffix starting
at it (the second walk resumes from that position). -/
def findPayloadSuffix : List CObj → Option (Nat × List CObj)
  | [] => none
  | c :: rest =>
    match c with
    | .payload i => some (i, CObj.payload i :: rest)
    | _ => findPayloadSuffix rest

/-- The second walk of `_receive` (dnssim.c:501-512): scan on from the
payload's position for the first `IP`/`IP6` object. -/
def findIpFrom : List CObj → Option CObj
  | [] => none
  | c :: rest => if c.isIpLayer then some c else findIpFrom rest

/-- The `free_after_use` pass (dnssim.c:514-525): walk the whole chain from
the head and free every object that is not a payload, in chain order. -/
def freeNonPayload (chain : List CObj) : List CObj :=
  chain.filter (fun o => ¬ o.isPayload)

/-- The engine fields `_receive` reads and writes. -/
structure RecvEngine where
  processed      : Nat
  discarded      : Nat
  free_after_use : Bool
  max_clients    : Nat
deriving DecidableEq, Repr

/-- The observable outcome of one `_receive` call: the updated engine
counters, the list of chain objects freed, and the argument pair
`(client key, payload)` of the `create_request` invocation, when any. -/
structure RecvResult where
  engine  : RecvEngine
  freed   : List CObj
  created : Option (Nat × Nat)
deriving DecidableEq, Repr

/-- `_receive(self, obj)`, in source order: `processed++`; find the
payload (miss: `discarded++`, return); find the IP layer from there
(miss: `discarded++`, return); run the `free_after_use` pass; check
`client >= max_clients` (hit: `discarded++`, return); invoke
`create_request`. -/
def receive (e : RecvEngine) (chain : List CObj) : RecvResult :=
  let e := { e with processed := e.processed + 1 }
  match findPayloadSuffix chain with
  | none => ⟨{ e with discarded := e.discarded + 1 }, [], none⟩
  | some (pid, suffix) =>
    match findIpFrom suffix with
    | none => ⟨{ e with discarded := e.discarded + 1 }, [], none⟩
    | some ipobj =>
      let client := extractClient ipobj
      let freed := if e.free_after_use then freeNonPayload chain else []
      if e.max_clients ≤ client then
        ⟨{ e with discarded := e.discarded + 1 }, freed, none⟩
      else
        ⟨e, freed, some (client, pid)⟩

/-- Counterexample to claim C4: on a chain holding a payload and an IP
object whose client key (7) is out of range for `max_clients = 4`, with
`free_after_use` set, the packet is discarded — yet the IP object has
already been freed, contradicting the claim that no chain object is freed
when a precondition fails. -/
theorem receive_claim_false :
    (receive ⟨0, 0, true, 4⟩ [CObj.payload 0, CObj.ip [7, 0, 0, 0]]).engine.discarded = 1 ∧
    (receive ⟨0, 0, true, 4⟩ [CObj.payload 0, CObj.ip [7, 0, 0, 0]]).created = none ∧
    ¬ (receive ⟨0, 0, true, 4⟩ [CObj.payload 0, CObj.ip [7, 0, 0, 0]]).freed = [] := by
  decide

/-- Claim C4 amended: if the chain has no payload, or no IP/IP6 object at
or past the first payload, then `discarded` is incremented, no request is
created and nothing is freed.  When both objects exist, the
`free_after_use` pass frees every non-payload chain object *before* the
client-range check, so an out-of-range client key (≥ `max_clients`) still
increments `discarded` and creates no request but does not prevent the
frees; `create_request` is invoked, with the in-range client key and the
payload, exactly when all three preconditions hold. -/
theorem receive_spec (e : RecvEngine) (chain : List CObj) :
    ((receive e chain).engine.processed = e.processed + 1) ∧
    (findPayloadSuffix chain = none →
      (receive e chain).engine.discarded = e.discarded + 1 ∧
      (receive e chain).created = none ∧ (receive e chain).freed = []) ∧
    (∀ pid suffix, findPayloadSuffix chain = some (pid, suffix) →
      findIpFrom suffix = none →
      (receive e chain).engine.discarded = e.discarded + 1 ∧
      (receive e chain).created = none ∧ (receive e chain).freed = []) ∧
    (∀ pid suffix ipobj, findPayloadSuffix chain = some (pid, suffix) →
      findIpFrom suffix = some ipobj →
      ((receive e chain).freed =
        (if e.free_after_use then freeNonPayload chain else [])) ∧
      (e.max_clients ≤ extractClient ipobj →
        (receive e chain).engine.discarded = e.discarded + 1 ∧
        (receive e chain).created = none) ∧
      (extractClient ipobj < e.max_clients →
        (receive e chain).engine.discarded = e.discarded ∧
        (receive e chain).created = some (extractClient ipobj, pid))) := by
  refine ⟨?_, ?_, ?_, ?_⟩
  · unfold receive
    rcases hp : findPayloadSuffix chain with _ | ⟨pid, suffix⟩
    · simp
    · rcases hi : findIpFrom suffix with _ | ipobj
      · simp [hi]
      · by_cases hcl : e.max_clients ≤ extractClient ipobj <;> simp [hi, hcl]
  · intro hp; simp [receive, hp]
  · intro pid suffix hp hi; simp [receive, hp, hi]
  · intro pid suffix ipobj hp hi
    refine ⟨?_, fun hcl => ?_, fun hcl => ?_⟩
    · by_cases hcl : e.max_clients ≤ extractClient ipobj <;>
        simp [receive, hp, hi, hcl]
    · simp [receive, hp, hi, hcl]
    · have hcl' : ¬ e.max_clients ≤ extractClient ipobj := by omega
      simp [receive, hp, hi, hcl']

/-- Witness for the amended C4: the counterexample chain, plus an in-range
packet that reaches `create_request` with client key 2. -/
theorem receive_spec_witness :
    (receive ⟨0, 0, true, 4⟩ [CObj.payload 5, CObj.other 9, CObj.ip6 [2, 0, 0, 0]]).created
        = some (2, 5) ∧
    (receive ⟨0, 0, true, 4⟩ [CObj.payload 5, CObj.other 9, CObj.ip6 [2, 0, 0, 0]]).freed
        = [CObj.other 9, CObj.ip6 [2, 0, 0, 0]] := by
  have h := (receive_spec ⟨0, 0, true, 4⟩
      [CObj.payload 5, CObj.other 9, CObj.ip6 [2, 0, 0, 0]]).2.2.2
      5 [CObj.payload 5, CObj.other 9, CObj.ip6 [2, 0, 0, 0]] (CObj.ip6 [2, 0, 0, 0])
      (by decide) (by decide)
  exact ⟨(h.2.2 (by decide)).2, by decide⟩

/-! ### The statistics ledger (claim C6)

State: `stats_sum` plus the snapshot chain reachable from `stats_current`
via `prev` (head = current snapshot).  The steps are the three sites that
touch the ledger: the `total` increments of `_create_request_udp`
(dnssim.c:358-360), the `answered`/`noerror` increments of
`_process_udp_response` (dnssim.c:195-202), and the snapshot splice of
`_stat_timer_cb` (dnssim.c:624-630).  `output_dnssim_new` obtains
`stats_sum` and the first snapshot from plain `malloc` (dnssim.c:398-399)
and never initializes them — `_stats_defaults` is written only into the
later snapshots allocated by `_stat_timer_cb` (dnssim.c:626) — so the
initial contents of both records are indeterminate; the model carries
them as parameters. -/

/-- The ledger: `stats_sum` and the `prev`-chain from `stats_current`. -/
structure LedgerState where
  sum   : Stats
  chain : List Stats
deriving DecidableEq, Repr

/-- `total++` on one record. -/
def bumpTotal (st : Stats) : Stats := { st with total := st.total + 1 }

/-- The `answered++` (and, for `rcode == NOERROR`, `noerror++`) of the
response path, on one record. -/
def bumpAnswered (noerr : Bool) (st : Stats) : Stats :=
  { st with answered := st.answered + 1,
            noerror := if noerr then st.noerror + 1 else st.noerror }

/-- One ledger-touching step of the engine. -/
inductive LedgerStep : LedgerState → LedgerState → Prop where
  /-- `_create_request_udp` on a well-formed query header: `sum.total++`
  and `current.total++` in the same handler. -/
  | createRequest (s : LedgerState) (cur : Stats) (rest : List Stats)
      (h : s.chain = cur :: rest) :
      LedgerStep s ⟨bumpTotal s.sum, bumpTotal cur :: rest⟩
  /-- `_process_udp_response` on a matching reply: `sum.answered++` and
  `current.answered++` (and both `noerror` when `rcode == NOERROR`). -/
  | response (noerr : Bool) (s : LedgerState) (cur : Stats) (rest : List Stats)
      (h : s.chain = cur :: rest) :
      LedgerStep s ⟨bumpAnswered noerr s.sum, bumpAnswered noerr cur :: rest⟩
  /-- `_stat_timer_cb`: splice a fresh `_stats_defaults` snapshot after the
  current one and make it current. -/
  | statTick (s : LedgerState) :
      LedgerStep s ⟨s.sum, statsDefaults :: s.chain⟩

/-- The ledger as `output_dnssim_new` leaves it: `stats_sum` and the
single snapshot `stats_current = stats_first` are `malloc`ed without
initialization (dnssim.c:398-400), so their contents are whatever the
allocator left there — the parameters `g_sum` and `g_cur`. -/
def mallocLedger (g_sum g_cur : Stats) : LedgerState := ⟨g_sum, [g_cur]⟩

/-- The ledger states reachable at quiescent points, from an engine whose
uninitialized `stats_sum` held `g_sum` and whose uninitialized first
snapshot held `g_cur`. -/
inductive LedgerReachable (g_sum g_cur : Stats) : LedgerState → Prop where
  | init : LedgerReachable g_sum g_cur (mallocLedger g_sum g_cur)
  | step {s t : LedgerState} :
      LedgerReachable g_sum g_cur s → LedgerStep s t →
      LedgerReachable g_sum g_cur t

/-- Sum of one counter over the snapshot chain. -/
def chainSum (f : Stats → Nat) (c : List Stats) : Nat := (c.map f).sum

/-- Claim C6 fails on the code: `output_dnssim_new` never initializes
`stats_sum` or the first snapshot, so with any nonzero malloc residue —
here `total = 5` left in `stats_sum` and a zeroed first snapshot — the
equality `sum.total = Σ chain.total` is already false at the first
quiescent point.  The per-step pairing the claim appeals to is real:
every step changes `sum` and the current snapshot in lockstep, so the
initial discrepancy of 5 persists unchanged at every reachable quiescent
point (second conjunct), instead of the claimed equality. -/
theorem ledger_sum_uninitialized_bug :
    (¬ (mallocLedger ⟨5, 0, 0⟩ statsDefaults).sum.total =
        chainSum Stats.total (mallocLedger ⟨5, 0, 0⟩ statsDefaults).chain) ∧
    (∀ s : LedgerState, LedgerReachable ⟨5, 0, 0⟩ statsDefaults s →
      (s.sum.total : Int) - (chainSum Stats.total s.chain : Int) = 5 ∧
      (s.sum.answered : Int) - (chainSum Stats.answered s.chain : Int) = 0 ∧
      (s.sum.noerror : Int) - (chainSum Stats.noerror s.chain : Int) = 0) := by
  constructor
  · decide
  · intro s hs
    induction hs with
    | init => simp [mallocLedger, chainSum, statsDefaults]
    | step _ hstep ih =>
      rcases ih with ⟨iht, iha, ihn⟩
      cases hstep with
      | createRequest s cur rest hc =>
        rw [hc] at iht iha ihn
        simp [bumpTotal, chainSum] at *
        omega
      | response noerr s cur rest hc =>
        rw [hc] at iht iha ihn
        cases noerr <;> simp [bumpAnswered, chainSum] at * <;> omega
      | statTick s =>
        simp [chainSum, statsDefaults] at *
        omega

/-- Witness for the C6 bug theorem at the concrete initial state: the
engine fresh out of `output_dnssim_new` with residue `5` in
`stats_sum->total` is off by exactly 5. -/
theorem ledger_sum_uninitialized_bug_witness :
    ((mallocLedger ⟨5, 0, 0⟩ statsDefaults).sum.total : Int) -
      (chainSum Stats.total (mallocLedger ⟨5, 0, 0⟩ statsDefaults).chain : Int) = 5 :=
  (ledger_sum_uninitialized_bug.2 (mallocLedger ⟨5, 0, 0⟩ statsDefaults)
    LedgerReachable.init).1

/-! ### The `ongoing` counter on the send-failure path (claim C7)

`_create_query_udp` links the fresh query to the request (`req->qry = qry`,
dnssim.c:296) *before* the bind/`try_send`/`recv_start` calls, but
increments `self->ongoing` (dnssim.c:327) only after all of them succeed.
`_close_query_udp_cb` (dnssim.c:236) decrements `ongoing` unconditionally.
The model below evaluates the trace of one admitted packet whose
`uv_udp_try_send` fails: `_create_request_udp`'s failure epilogue closes
the request, the loop drains the close callback, and `ongoing` ends at
`-1`, not `0`. -/

/-- The state claim C7 is about: the `ongoing` counter and whether the
query is linked to its request. -/
structure OngoingState where
  ongoing   : Int
  qryLinked : Bool
deriving DecidableEq, Repr

/-- The point at which `_create_query_udp` bails out, if any. -/
inductive SendOutcome where
  | ok | bindFail | sendFail | recvStartFail
deriving DecidableEq, Repr

/-- `_create_query_udp` restricted to the query link and `ongoing`: the
query is linked first; each failing call returns before the
`ongoing++` at dnssim.c:327 runs. -/
def createQueryUdp (out : SendOutcome) (s : OngoingState) : OngoingState × Int :=
  let s := { s with qryLinked := true }
  match out with
  | .bindFail      => (s, -1)
  | .sendFail      => (s, -1)
  | .recvStartFail => (s, -1)
  | .ok            => ({ s with ongoing := s.ongoing + 1 }, 0)

/-- `_close_query_udp_cb` restricted to the same state: `ongoing--`
(dnssim.c:236) and the unlink of the query. -/
def closeQueryUdpCb (s : OngoingState) : OngoingState :=
  { s with ongoing := s.ongoing - 1, qryLinked := false }

/-- The drained trace of one admitted packet whose `uv_udp_try_send`
fails: query creation, then the close callback issued by the failure
epilogue's `_close_request`. -/
def ongoingAfterSendFailTrace : OngoingState :=
  closeQueryUdpCb (createQueryUdp SendOutcome.sendFail ⟨0, false⟩).1

/-- Claim C7 fails on the code: after the send-failure trace drains, the
`ongoing` counter is `-1`, not `0` — the close callback's decrement has no
matching increment.  On the success path the two do match. -/
theorem ongoing_send_fail_trace :
    ongoingAfterSendFailTrace.ongoing = -1 ∧
    (closeQueryUdpCb (createQueryUdp SendOutcome.ok ⟨0, false⟩).1).ongoing = 0 := by
  decide

/-! ### The request lifecycle (claim C1)

A small-step model of one request's lifetime across the asynchronous
events of the loop.  `_create_request_udp` creates at most one query per
request, so the query list holds at most one entry; it is modelled by a
three-valued status.  `uv_close` does not run its callback synchronously:
libuv queues closing handles and runs their callbacks in LIFO order
(`uv_close` prepends to `loop->closing_handles`), which the model captures
as a stack of pending close callbacks. -/

/-- Status of the request's query list: empty (`req->qry == NULL`), one
query with a live socket, or one query whose handle has been passed to
`uv_close` (the query stays on the list until its close callback runs). -/
inductive QryS where
  | absent | opened | closing
deriving DecidableEq, Repr

/-- Status of `req->timeout`: pointer `NULL`, timer armed, or closing
(`timeout_closing` set, `uv_close` issued, pointer still non-`NULL`). -/
inductive TimS where
  | null | armed | closing
deriving DecidableEq, Repr

/-- A pending libuv close callback of this request:
`_close_query_udp_cb` or `_close_request_timeout_cb`. -/
inductive Cb where
  | qryCb | timCb
deriving DecidableEq, Repr

/-- One request's lifecycle state: query list, timeout, whether the
request memory has been freed, and the stack of pending close callbacks
(head runs first — libuv's LIFO order). -/
structure ReqLife where
  qry     : QryS
  tim     : TimS
  freed   : Bool
  pending : List Cb
deriving DecidableEq, Repr

/-- `_maybe_free_request` on the lifecycle state: free exactly when the
query list is empty and the timeout pointer is `NULL`. -/
def lifeMaybeFree (s : ReqLife) : ReqLife :=
  if s.qry = QryS.absent ∧ s.tim = TimS.null then { s with freed := true } else s

/-- `_close_request_timeout`: when `timeout_closing` is clear, set it, stop
the timer and issue `uv_close` (pushing `_close_request_timeout_cb`);
when the handle is already closing, do nothing (dnssim.c:162). -/
def lifeCloseTimeout (s : ReqLife) : ReqLife :=
  if s.tim = TimS.armed then
    { s with tim := TimS.closing, pending := Cb.timCb :: s.pending }
  else s

/-- The query loop of `_close_request` (dnssim.c:141-145): for every query
on the list, `_close_query_udp` stops receive and issues `uv_close`,
pushing `_close_query_udp_cb`. -/
def lifeCloseQueries (s : ReqLife) : ReqLife :=
  match s.qry with
  | QryS.absent => s
  | _ => { s with qry := QryS.closing, pending := Cb.qryCb :: s.pending }

/-- `_close_request` (dnssim.c:132-147): close the timeout if its pointer
is non-`NULL`, close every query on the list, then `_maybe_free_request`. -/
def lifeCloseRequest (s : ReqLife) : ReqLife :=
  lifeMaybeFree (lifeCloseQueries (lifeCloseTimeout s))

/-- `_close_request_timeout_cb` (dnssim.c:149-156): free the timer handle,
set `req->timeout = NULL`, then `_close_request`. -/
def lifeTimCb (s : ReqLife) : ReqLife :=
  lifeCloseRequest { s with tim := TimS.null }

/-- `_close_query_udp_cb` (dnssim.c:229-262): find the query the handle
belongs to; when it is on the list, unlink it and — head case —
`_maybe_free_request`; when the list does not hold it, only warn. -/
def lifeQryCb (s : ReqLife) : ReqLife :=
  match s.qry with
  | QryS.absent => s
  | _ => lifeMaybeFree { s with qry := QryS.absent }

/-- Dispatch one popped close callback. -/
def runCb (cb : Cb) (s : ReqLife) : ReqLife :=
  match cb with
  | Cb.timCb => lifeTimCb s
  | Cb.qryCb => lifeQryCb s

/-- The asynchronous events that can touch one request. -/
inductive LifeStep : ReqLife → ReqLife → Prop where
  /-- A matching reply arrives on the query's open socket:
  `_process_udp_response` ends in `_close_request` (dnssim.c:204). -/
  | response (s : ReqLife) (h : s.qry = QryS.opened) :
      LifeStep s (lifeCloseRequest s)
  /-- The armed one-shot timer expires; its callback is
  `_close_request_timeout` (dnssim.c:376). -/
  | timerFire (s : ReqLife) (h : s.tim = TimS.armed) :
      LifeStep s (lifeCloseTimeout s)
  /-- The loop runs the most recently queued pending close callback. -/
  | runClose (s : ReqLife) (cb : Cb) (rest : List Cb)
      (h : s.pending = cb :: rest) :
      LifeStep s (runCb cb { s with pending := rest })

/-- Request state after a fully successful `_create_request_udp`: one open
query, armed timer, nothing pending. -/
def lifeInitOk : ReqLife := ⟨QryS.opened, TimS.armed, false, []⟩

/-- Request state after a bind / `try_send` / `recv_start` / timer-init
failure: the query is already linked, no timer, and the failure epilogue
runs `_close_request` (dnssim.c:383-386). -/
def lifeInitSendFail : ReqLife := lifeCloseRequest ⟨QryS.opened, TimS.null, false, []⟩

/-- Request state after a `uv_timer_start` failure: query linked, timer
pointer set, epilogue runs `_close_request`. -/
def lifeInitTimerFail : ReqLife := lifeCloseRequest ⟨QryS.opened, TimS.armed, false, []⟩

/-- Request state after a malformed query header: no query, no timer,
epilogue runs `_close_request`, which frees at once. -/
def lifeInitNoQuery : ReqLife := lifeCloseRequest ⟨QryS.absent, TimS.null, false, []⟩

/-- The lifecycle states reachable by the engine. -/
inductive LifeReachable : ReqLife → Prop where
  | initOk : LifeReachable lifeInitOk
  | initSendFail : LifeReachable lifeInitSendFail
  | initTimerFail : LifeReachable lifeInitTimerFail
  | initNoQuery : LifeReachable lifeInitNoQuery
  | step {s t : ReqLife} : LifeReachable s → LifeStep s t → LifeReachable t

/-- The invariant state space: every query or timeout that is closing has
exactly one pending callback, callbacks pending for a request's query sit
above the one for its timer, and the freed state has nothing pending. -/
def lifeGoodStates : List ReqLife :=
  [⟨QryS.opened,  TimS.armed,   false, []⟩,
   ⟨QryS.opened,  TimS.null,    false, []⟩,
   ⟨QryS.opened,  TimS.closing, false, [Cb.timCb]⟩,
   ⟨QryS.closing, TimS.null,    false, [Cb.qryCb]⟩,
   ⟨QryS.closing, TimS.closing, false, [Cb.qryCb, Cb.timCb]⟩,
   ⟨QryS.absent,  TimS.null,    false, []⟩,
   ⟨QryS.absent,  TimS.armed,   false, []⟩,
   ⟨QryS.absent,  TimS.closing, false, [Cb.timCb]⟩,
   ⟨QryS.absent,  TimS.null,    true,  []⟩]

/-- One step preserves membership in the good states. -/
theorem lifeStep_closed {s t : ReqLife} (hs : s ∈ lifeGoodStates)
    (hstep : LifeStep s t) : t ∈ lifeGoodStates := by
  fin_cases hs <;>
    (cases hstep with
     | response h =>
       first
       | exact absurd h (by decide)
       | decide
     | timerFire h =>
       first
       | exact absurd h (by decide)
       | decide
     | runClose cb rest h =>
       first
       | (simp at h
          obtain ⟨h1, h2⟩ := h
          subst h1
          subst h2
          decide)
       | simp at h)

/-- Every reachable lifecycle state is a good state. -/
theorem lifeReachable_good {s : ReqLife} (h : LifeReachable s) :
    s ∈ lifeGoodStates := by
  induction h with
  | initOk => decide
  | initSendFail => decide
  | initTimerFail => decide
  | initNoQuery => decide
  | step _ hstep ih => exact lifeStep_closed ih hstep

/-- Claim C1: in every reachable engine state, a request is freed only
with its query list empty and its timeout pointer `NULL`; it is never
freed while any of its queries or its timeout still has a pending close
callback (the pending stack is empty whenever `freed` holds); and no
handle callback can run on the request after the freeing observation — a
freed state admits no further step. -/
theorem request_lifecycle_safe (s : ReqLife) (h : LifeReachable s) :
    (s.freed = true →
      s.qry = QryS.absent ∧ s.tim = TimS.null ∧ s.pending = []) ∧
    (s.freed = true → ∀ t : ReqLife, ¬ LifeStep s t) := by
  have hmem : s ∈ lifeGoodStates := lifeReachable_good h
  constructor
  · intro hf
    fin_cases hmem <;> first
      | exact absurd hf (by decide)
      | decide
  · intro hf t hstep
    fin_cases hmem <;> first
      | exact absurd hf (by decide)
      | (cases hstep with
         | response h0 => exact absurd h0 (by decide)
         | timerFire h0 => exact absurd h0 (by decide)
         | runClose cb rest h0 => simp at h0)

/-- Witness for C1 at the concrete freed state reached by a request whose
query header was malformed: it is reachable, freed, and has no pending
close callback. -/
theorem request_lifecycle_safe_witness :
    lifeInitNoQuery.freed = true ∧ lifeInitNoQuery.pending = [] := by
  have h := request_lifecycle_safe lifeInitNoQuery LifeReachable.initNoQuery
  exact ⟨by decide, (h.1 (by decide)).2.2⟩

end Dnssim
